import Mathlib

/-!
Shallow embedding of the validated-conversion layer of the audiopus crate
(`src/lib.rs`): the closed-domain enumerations `Signal`, `Bitrate`,
`SampleRate`, `Application`, `Channels`, `Bandwidth`, the buffer guard
`MutSignals`, and the `version` query.  Rust `i32` values are modelled as
`Int` (with explicit two's-complement wrapping where the source performs an
`as u32` cast); fallible conversions return `Except Error T`.
-/

instance {ε α : Type} [DecidableEq ε] [DecidableEq α] : DecidableEq (Except ε α) := fun x y =>
  match x, y with
  | .error a, .error b => decidable_of_iff (a = b) (by simp)
  | .ok a, .ok b => decidable_of_iff (a = b) (by simp)
  | .error _, .ok _ => isFalse (by simp)
  | .ok _, .error _ => isFalse (by simp)

/-- Native constant `OPUS_AUTO` from `audiopus_sys` (libopus `opus_defines.h`),
an `i32` equal to `-1000`; used without cast in `lib.rs`. -/
def OPUS_AUTO : Int := -1000

/-- Native constant `OPUS_BITRATE_MAX` from `audiopus_sys`, an `i32` equal
to `-1`. -/
def OPUS_BITRATE_MAX : Int := -1

/-- `pub const FFI_OPUS_SIGNAL_VOICE: i32 = ffi::OPUS_SIGNAL_VOICE as i32;`
(`lib.rs` line 55); the native value is `3001`. -/
def FFI_OPUS_SIGNAL_VOICE : Int := 3001

/-- `pub const FFI_OPUS_SIGNAL_MUSIC: i32 = ffi::OPUS_SIGNAL_MUSIC as i32;`
(`lib.rs` line 56); the native value is `3002`. -/
def FFI_OPUS_SIGNAL_MUSIC : Int := 3002

/-- Native constant `OPUS_APPLICATION_VOIP` (a `u32` in `audiopus_sys`),
value `2048`. -/
def OPUS_APPLICATION_VOIP : Int := 2048

/-- Native constant `OPUS_APPLICATION_AUDIO` (a `u32` in `audiopus_sys`),
value `2049`. -/
def OPUS_APPLICATION_AUDIO : Int := 2049

/-- Native constant `OPUS_APPLICATION_RESTRICTED_LOWDELAY` (a `u32` in
`audiopus_sys`), value `2051`. -/
def OPUS_APPLICATION_RESTRICTED_LOWDELAY : Int := 2051

/-- Native constant `OPUS_BANDWIDTH_NARROWBAND` (a `u32` in `audiopus_sys`),
value `1101`. -/
def OPUS_BANDWIDTH_NARROWBAND : Int := 1101

/-- Native constant `OPUS_BANDWIDTH_MEDIUMBAND`, value `1102`. -/
def OPUS_BANDWIDTH_MEDIUMBAND : Int := 1102

/-- Native constant `OPUS_BANDWIDTH_WIDEBAND`, value `1103`. -/
def OPUS_BANDWIDTH_WIDEBAND : Int := 1103

/-- Native constant `OPUS_BANDWIDTH_SUPERWIDEBAND`, value `1104`. -/
def OPUS_BANDWIDTH_SUPERWIDEBAND : Int := 1104

/-- Native constant `OPUS_BANDWIDTH_FULLBAND`, value `1105`. -/
def OPUS_BANDWIDTH_FULLBAND : Int := 1105

/-- The Rust cast `value as u32` applied to an `i32` value: two's-complement
reinterpretation, i.e. reduction modulo `2^32` into `[0, 2^32)`. -/
def i32ToU32 (v : Int) : Int := v % 4294967296

/-- Modelled from the spec: the error taxonomy of the crate's `error.rs`
(the module is declared in `lib.rs` but its file is not under `src/`).
Spec section 4.3 lists the local variants invalid-signal(raw),
invalid-bandwidth(raw), invalid-sample-rate(raw), invalid-application,
invalid-channels(raw) and signals-too-large; the construction sites inside
`lib.rs` (e.g. `Error::InvalidSignal(value)`, `Error::InvalidApplication`,
`Error::SignalsTooLarge`) fix each variant's payload arity. The
native-status variant is irrelevant to the conversions embedded here and
is omitted. -/
inductive Error where
  | InvalidApplication
  | InvalidBandwidth (raw : Int)
  | InvalidChannels (raw : Int)
  | InvalidSampleRate (raw : Int)
  | InvalidSignal (raw : Int)
  | SignalsTooLarge
  deriving DecidableEq

/-- `pub enum Signal` (`lib.rs` lines 58–64), `repr(i32)` with discriminants
`Auto = OPUS_AUTO`, `Voice = 3001`, `Music = 3002`. -/
inductive Signal where
  | Auto
  | Voice
  | Music
  deriving DecidableEq

/-- The raw `i32` code of a `Signal` (its `repr(i32)` discriminant, read off
the enum declaration in `lib.rs`). -/
def Signal.toRaw : Signal → Int
  | .Auto => OPUS_AUTO
  | .Voice => FFI_OPUS_SIGNAL_VOICE
  | .Music => FFI_OPUS_SIGNAL_MUSIC

/-- `impl TryFrom<i32> for Signal` (`lib.rs` lines 66–77): match on the raw
value against `OPUS_AUTO`, `FFI_OPUS_SIGNAL_VOICE`, `FFI_OPUS_SIGNAL_MUSIC`,
otherwise `Err(Error::InvalidSignal(value))`. -/
def Signal.tryFrom (value : Int) : Except Error Signal :=
  if value = OPUS_AUTO then .ok .Auto
  else if value = FFI_OPUS_SIGNAL_VOICE then .ok .Voice
  else if value = FFI_OPUS_SIGNAL_MUSIC then .ok .Music
  else .error (.InvalidSignal value)

/-- `pub enum Bitrate` (`lib.rs` lines 79–87): an explicit bits-per-second
payload, or the `Max` / `Auto` sentinels. -/
inductive Bitrate where
  | BitsPerSecond (bits : Int)
  | Max
  | Auto
  deriving DecidableEq

/-- `impl From<Bitrate> for i32` (`lib.rs` lines 89–97). -/
def Bitrate.toI32 : Bitrate → Int
  | .Auto => OPUS_AUTO
  | .Max => OPUS_BITRATE_MAX
  | .BitsPerSecond bits => bits

/-- `impl TryFrom<i32> for Bitrate` (`lib.rs` lines 99–110): `OPUS_AUTO` maps
to `Auto`, `OPUS_BITRATE_MAX` to `Max`, any strictly positive value
(`x.is_positive()`) to `BitsPerSecond(x)`, and everything else fails with
`Error::InvalidBandwidth(value)` (the bandwidth error variant, as in
the source). -/
def Bitrate.tryFrom (value : Int) : Except Error Bitrate :=
  if value = OPUS_AUTO then .ok .Auto
  else if value = OPUS_BITRATE_MAX then .ok .Max
  else if 0 < value then .ok (.BitsPerSecond value)
  else .error (.InvalidBandwidth value)

/-- `pub enum SampleRate` (`lib.rs` lines 114–122), `repr(i32)` with
discriminants 8000, 12000, 16000, 24000, 48000. -/
inductive SampleRate where
  | Hz8000
  | Hz12000
  | Hz16000
  | Hz24000
  | Hz48000
  deriving DecidableEq

/-- The raw `i32` code of a `SampleRate` (its `repr(i32)` discriminant). -/
def SampleRate.toRaw : SampleRate → Int
  | .Hz8000 => 8000
  | .Hz12000 => 12000
  | .Hz16000 => 16000
  | .Hz24000 => 24000
  | .Hz48000 => 48000

/-- `impl TryFrom<i32> for SampleRate` (`lib.rs` lines 124–138). -/
def SampleRate.tryFrom (value : Int) : Except Error SampleRate :=
  if value = 8000 then .ok .Hz8000
  else if value = 12000 then .ok .Hz12000
  else if value = 16000 then .ok .Hz16000
  else if value = 24000 then .ok .Hz24000
  else if value = 48000 then .ok .Hz48000
  else .error (.InvalidSampleRate value)

/-- `pub enum Application` (`lib.rs` lines 141–152), `repr(i32)` with
discriminants `Voip = 2048`, `Audio = 2049`, `LowDelay = 2051`. -/
inductive Application where
  | Voip
  | Audio
  | LowDelay
  deriving DecidableEq

/-- The raw `i32` code of an `Application` (its `repr(i32)` discriminant). -/
def Application.toRaw : Application → Int
  | .Voip => 2048
  | .Audio => 2049
  | .LowDelay => 2051

/-- `impl TryFrom<i32> for Application` (`lib.rs` lines 154–166): the source
matches `value as _` — a cast of the `i32` input to `u32`, the type of the
`audiopus_sys` application constants — against the three codes, otherwise
`Err(Error::InvalidApplication)` with no payload. -/
def Application.tryFrom (value : Int) : Except Error Application :=
  if i32ToU32 value = OPUS_APPLICATION_VOIP then .ok .Voip
  else if i32ToU32 value = OPUS_APPLICATION_AUDIO then .ok .Audio
  else if i32ToU32 value = OPUS_APPLICATION_RESTRICTED_LOWDELAY then .ok .LowDelay
  else .error .InvalidApplication

/-- `pub enum Channels` (`lib.rs` lines 169–176), `repr(i32)` with
discriminants `Auto = OPUS_AUTO`, `Mono = 1`, `Stereo = 2`. -/
inductive Channels where
  | Auto
  | Mono
  | Stereo
  deriving DecidableEq

/-- `Channels::is_mono` (`lib.rs` lines 179–185). -/
def Channels.is_mono : Channels → Bool
  | .Mono => true
  | _ => false

/-- `Channels::is_stereo` (`lib.rs` lines 187–193). -/
def Channels.is_stereo : Channels → Bool
  | .Stereo => true
  | _ => false

/-- `impl TryFrom<i32> for Channels` (`lib.rs` lines 196–208). -/
def Channels.tryFrom (value : Int) : Except Error Channels :=
  if value = OPUS_AUTO then .ok .Auto
  else if value = 1 then .ok .Mono
  else if value = 2 then .ok .Stereo
  else .error (.InvalidChannels value)

/-- `impl From<Channels> for i32` (`lib.rs` lines 210–214): `channels as i32`,
the `repr(i32)` discriminant. -/
def Channels.toI32 : Channels → Int
  | .Auto => OPUS_AUTO
  | .Mono => 1
  | .Stereo => 2

/-- `pub enum Bandwidth` (`lib.rs` lines 217–232), `repr(i32)` with
discriminants `Auto = OPUS_AUTO` and the five native bandwidth codes. -/
inductive Bandwidth where
  | Auto
  | Narrowband
  | Mediumband
  | Wideband
  | Superwideband
  | Fullband
  deriving DecidableEq

/-- The raw `i32` code of a `Bandwidth` (its `repr(i32)` discriminant). -/
def Bandwidth.toRaw : Bandwidth → Int
  | .Auto => OPUS_AUTO
  | .Narrowband => OPUS_BANDWIDTH_NARROWBAND
  | .Mediumband => OPUS_BANDWIDTH_MEDIUMBAND
  | .Wideband => OPUS_BANDWIDTH_WIDEBAND
  | .Superwideband => OPUS_BANDWIDTH_SUPERWIDEBAND
  | .Fullband => OPUS_BANDWIDTH_FULLBAND

/-- `impl TryFrom<i32> for Bandwidth` (`lib.rs` lines 234–252): the source
first tests `value == ffi::OPUS_AUTO` and returns `Bandwidth::Auto`
unconditionally on match; only then does it match `value as _` — the `i32`
cast to `u32`, the type of the `audiopus_sys` bandwidth constants — against
the five ladder codes, failing with `Error::InvalidBandwidth(value)`
otherwise. -/
def Bandwidth.tryFrom (value : Int) : Except Error Bandwidth :=
  if value = OPUS_AUTO then .ok .Auto
  else if i32ToU32 value = OPUS_BANDWIDTH_NARROWBAND then .ok .Narrowband
  else if i32ToU32 value = OPUS_BANDWIDTH_MEDIUMBAND then .ok .Mediumband
  else if i32ToU32 value = OPUS_BANDWIDTH_WIDEBAND then .ok .Wideband
  else if i32ToU32 value = OPUS_BANDWIDTH_SUPERWIDEBAND then .ok .Superwideband
  else if i32ToU32 value = OPUS_BANDWIDTH_FULLBAND then .ok .Fullband
  else .error (.InvalidBandwidth value)

/-- `pub struct MutSignals<'a, T>(&'a mut [T])` (`lib.rs` line 262): a newtype
over a mutably borrowed slice, modelled as the list of the slice's
elements. -/
structure MutSignals (α : Type) where
  data : List α
  deriving DecidableEq

/-- `impl TryFrom<&'a mut [T]> for MutSignals` (`lib.rs` lines 264–274):
fails with `Error::SignalsTooLarge` when `value.len() > i32::MAX as usize`,
otherwise wraps the slice. -/
def MutSignals.tryFrom {α : Type} (value : List α) : Except Error (MutSignals α) :=
  if value.length > 2147483647 then .error .SignalsTooLarge
  else .ok ⟨value⟩

/-- `impl TryFrom<&'a mut Vec<T>> for MutSignals` (`lib.rs` lines 276–282):
`value.as_mut_slice().try_into()` — forwards the vector's underlying slice
to the slice conversion. -/
def MutSignals.tryFromVec {α : Type} (value : List α) : Except Error (MutSignals α) :=
  MutSignals.tryFrom value

/-- A continuation byte check `lo ≤ b ≤ hi` used by the UTF-8 validator. -/
def utf8Tail (lo hi b : Nat) : Bool := lo ≤ b && b ≤ hi

/-- Validity of a byte sequence as UTF-8, per RFC 3629 (the well-formed byte
patterns of the Unicode standard, as enforced by Rust `str::from_utf8`,
which `CStr::to_str` calls): ASCII bytes stand alone; `C2–DF`, `E0–EF` and
`F0–F4` lead 2-, 3- and 4-byte sequences with the standard restricted
ranges for the first continuation byte (excluding overlong encodings and
surrogates); everything else is invalid. Bytes are `Nat` values below 256. -/
def isValidUtf8 : List Nat → Bool
  | [] => true
  | b :: l =>
    if b ≤ 127 then isValidUtf8 l
    else
      match l with
      | [] => false
      | c1 :: l1 =>
        if 194 ≤ b && b ≤ 223 then utf8Tail 128 191 c1 && isValidUtf8 l1
        else
          match l1 with
          | [] => false
          | c2 :: l2 =>
            if b = 224 then
              utf8Tail 160 191 c1 && utf8Tail 128 191 c2 && isValidUtf8 l2
            else if (225 ≤ b && b ≤ 236) || b = 238 || b = 239 then
              utf8Tail 128 191 c1 && utf8Tail 128 191 c2 && isValidUtf8 l2
            else if b = 237 then
              utf8Tail 128 159 c1 && utf8Tail 128 191 c2 && isValidUtf8 l2
            else
              match l2 with
              | [] => false
              | c3 :: l3 =>
                if b = 240 then
                  utf8Tail 144 191 c1 && utf8Tail 128 191 c2 &&
                    utf8Tail 128 191 c3 && isValidUtf8 l3
                else if 241 ≤ b && b ≤ 243 then
                  utf8Tail 128 191 c1 && utf8Tail 128 191 c2 &&
                    utf8Tail 128 191 c3 && isValidUtf8 l3
                else if b = 244 then
                  utf8Tail 128 143 c1 && utf8Tail 128 191 c2 &&
                    utf8Tail 128 191 c3 && isValidUtf8 l3
                else false

/-- Outcome of calling `version()`: either the decoded text (represented by
its bytes) or abnormal process termination. -/
inductive VersionOutcome where
  | text (bytes : List Nat)
  | abort
  deriving DecidableEq

/-- `pub fn version() -> &'static str` (`lib.rs` lines 301–307): reads the
native library's null-terminated version string (here: its byte contents
before the terminator) and runs `.to_str().unwrap()`. `to_str` fails exactly
when the bytes are not valid UTF-8, and `unwrap` on that failure panics,
terminating the process abnormally — modelled as `.abort`. -/
def version (nativeBytes : List Nat) : VersionOutcome :=
  if isValidUtf8 nativeBytes then .text nativeBytes else .abort

/-- C1 (counterexample): the round-trip fails on the constructible value
`Bitrate::BitsPerSecond(0)` — its raw code is `0`, and `Bitrate::try_from(0)`
rejects it instead of reproducing it. -/
theorem c1_bitrate_roundtrip_cex :
    Bitrate.tryFrom (Bitrate.toI32 (.BitsPerSecond 0)) ≠ .ok (.BitsPerSecond 0) := by
  decide

/-- C1 (amended): `from_raw(to_raw(v)) = Ok(v)` holds for every variant of
`Signal`, `SampleRate`, `Application`, `Channels` and `Bandwidth`, and for
`Bitrate::Auto`, `Bitrate::Max` and `Bitrate::BitsPerSecond(x)` whenever the
payload `x` is strictly positive — but not for non-positive payloads, which
the variant can also carry. -/
theorem c1_roundtrip_amended :
    (∀ s : Signal, Signal.tryFrom s.toRaw = .ok s) ∧
    (∀ r : SampleRate, SampleRate.tryFrom r.toRaw = .ok r) ∧
    (∀ a : Application, Application.tryFrom a.toRaw = .ok a) ∧
    (∀ c : Channels, Channels.tryFrom c.toI32 = .ok c) ∧
    (∀ b : Bandwidth, Bandwidth.tryFrom b.toRaw = .ok b) ∧
    Bitrate.tryFrom (Bitrate.toI32 .Auto) = .ok .Auto ∧
    Bitrate.tryFrom (Bitrate.toI32 .Max) = .ok .Max ∧
    (∀ x : Int, 0 < x →
      Bitrate.tryFrom (Bitrate.toI32 (.BitsPerSecond x)) = .ok (.BitsPerSecond x)) := by
  refine ⟨fun s => by cases s <;> decide, fun r => by cases r <;> decide,
    fun a => by cases a <;> decide, fun c => by cases c <;> decide,
    fun b => by cases b <;> decide, by decide, by decide, fun x hx => ?_⟩
  show Bitrate.tryFrom x = .ok (.BitsPerSecond x)
  unfold Bitrate.tryFrom
  rw [if_neg (by unfold OPUS_AUTO; omega), if_neg (by unfold OPUS_BITRATE_MAX; omega),
    if_pos hx]

/-- C1 (witness): the amended round-trip at the concrete positive payload
`64000`. -/
theorem c1_roundtrip_amended_witness :
    (0 : Int) < 64000 ∧
      Bitrate.tryFrom (Bitrate.toI32 (.BitsPerSecond 64000)) = .ok (.BitsPerSecond 64000) :=
  ⟨by decide, c1_roundtrip_amended.2.2.2.2.2.2.2 64000 (by decide)⟩

/-- C2 (counterexample): `Application::try_from(0)` and
`Application::try_from(9999)` both fail with the identical payload-free
error `Error::InvalidApplication`, so the error cannot identify the exact
offending raw value. -/
theorem c2_application_error_cex :
    Application.tryFrom 0 = .error .InvalidApplication ∧
      Application.tryFrom 9999 = .error .InvalidApplication ∧
      Application.tryFrom 0 = Application.tryFrom 9999 := by
  decide

/-- C2 (amended): for every `i32` outside a closed-domain enumeration's fixed
code set the fallible conversion fails with a kind-specific error; for
`Signal`, `SampleRate`, `Channels` and `Bandwidth` that error carries the
exact offending raw value, while `Application` fails with the payload-free
`InvalidApplication` error that does not carry the rejected value. -/
theorem c2_rejection_amended :
    ∀ v : Int, -2147483648 ≤ v → v < 2147483648 →
      (v ∉ ([OPUS_AUTO, FFI_OPUS_SIGNAL_VOICE, FFI_OPUS_SIGNAL_MUSIC] : List Int) →
        Signal.tryFrom v = .error (.InvalidSignal v)) ∧
      (v ∉ ([8000, 12000, 16000, 24000, 48000] : List Int) →
        SampleRate.tryFrom v = .error (.InvalidSampleRate v)) ∧
      (v ∉ ([OPUS_APPLICATION_VOIP, OPUS_APPLICATION_AUDIO,
          OPUS_APPLICATION_RESTRICTED_LOWDELAY] : List Int) →
        Application.tryFrom v = .error .InvalidApplication) ∧
      (v ∉ ([OPUS_AUTO, 1, 2] : List Int) →
        Channels.tryFrom v = .error (.InvalidChannels v)) ∧
      (v ∉ ([OPUS_AUTO, OPUS_BANDWIDTH_NARROWBAND, OPUS_BANDWIDTH_MEDIUMBAND,
          OPUS_BANDWIDTH_WIDEBAND, OPUS_BANDWIDTH_SUPERWIDEBAND,
          OPUS_BANDWIDTH_FULLBAND] : List Int) →
        Bandwidth.tryFrom v = .error (.InvalidBandwidth v)) := by
  intro v hv1 hv2
  refine ⟨fun hmem => ?_, fun hmem => ?_, fun hmem => ?_, fun hmem => ?_, fun hmem => ?_⟩ <;>
    simp only [List.mem_cons, List.not_mem_nil, or_false, not_or,
      OPUS_AUTO, FFI_OPUS_SIGNAL_VOICE, FFI_OPUS_SIGNAL_MUSIC, OPUS_APPLICATION_VOIP,
      OPUS_APPLICATION_AUDIO, OPUS_APPLICATION_RESTRICTED_LOWDELAY,
      OPUS_BANDWIDTH_NARROWBAND, OPUS_BANDWIDTH_MEDIUMBAND, OPUS_BANDWIDTH_WIDEBAND,
      OPUS_BANDWIDTH_SUPERWIDEBAND, OPUS_BANDWIDTH_FULLBAND] at hmem
  · unfold Signal.tryFrom OPUS_AUTO FFI_OPUS_SIGNAL_VOICE FFI_OPUS_SIGNAL_MUSIC
    split_ifs <;> first | rfl | (exfalso; omega)
  · unfold SampleRate.tryFrom
    split_ifs <;> first | rfl | (exfalso; omega)
  · unfold Application.tryFrom i32ToU32 OPUS_APPLICATION_VOIP OPUS_APPLICATION_AUDIO
      OPUS_APPLICATION_RESTRICTED_LOWDELAY
    split_ifs <;> first | rfl | (exfalso; omega)
  · unfold Channels.tryFrom OPUS_AUTO
    split_ifs <;> first | rfl | (exfalso; omega)
  · unfold Bandwidth.tryFrom i32ToU32 OPUS_AUTO OPUS_BANDWIDTH_NARROWBAND
      OPUS_BANDWIDTH_MEDIUMBAND OPUS_BANDWIDTH_WIDEBAND OPUS_BANDWIDTH_SUPERWIDEBAND
      OPUS_BANDWIDTH_FULLBAND
    split_ifs <;> first | rfl | (exfalso; omega)

/-- C2 (witness): the amended rejection at the concrete out-of-domain raw
values `7` (for `Signal`) and `9999` (for `Application`). -/
theorem c2_rejection_amended_witness :
    Signal.tryFrom 7 = .error (.InvalidSignal 7) ∧
      Application.tryFrom 9999 = .error .InvalidApplication :=
  ⟨(c2_rejection_amended 7 (by decide) (by decide)).1 (by decide),
    (c2_rejection_amended 9999 (by decide) (by decide)).2.2.1 (by decide)⟩

/-- C3 (counterexample): `Bitrate::try_from(0)` fails with
`Error::InvalidBandwidth(0)` — the very error `Bandwidth::try_from(0)`
produces — not with a bitrate-specific error kind (the taxonomy has none). -/
theorem c3_bitrate_error_kind_cex :
    Bitrate.tryFrom 0 = .error (.InvalidBandwidth 0) ∧
      Bandwidth.tryFrom 0 = .error (.InvalidBandwidth 0) := by
  decide

/-- C3 (amended): `Bitrate::try_from` accepts every strictly positive `i32`
unchanged as `BitsPerSecond`, maps the auto sentinel to `Auto` and the max
sentinel to `Max`, and for every other (non-positive, non-sentinel) value
fails with the reused bandwidth error `InvalidBandwidth` carrying the
offending raw value. -/
theorem c3_bitrate_tryFrom_amended :
    ∀ v : Int,
      (0 < v → Bitrate.tryFrom v = .ok (.BitsPerSecond v)) ∧
      Bitrate.tryFrom OPUS_AUTO = .ok .Auto ∧
      Bitrate.tryFrom OPUS_BITRATE_MAX = .ok .Max ∧
      (v ≤ 0 → v ≠ OPUS_AUTO → v ≠ OPUS_BITRATE_MAX →
        Bitrate.tryFrom v = .error (.InvalidBandwidth v)) := by
  intro v
  refine ⟨fun hv => ?_, by decide, by decide, fun h1 h2 h3 => ?_⟩
  · unfold Bitrate.tryFrom OPUS_AUTO OPUS_BITRATE_MAX
    split_ifs <;> first | rfl | (exfalso; omega)
  · unfold Bitrate.tryFrom OPUS_AUTO OPUS_BITRATE_MAX
    unfold OPUS_AUTO at h2
    unfold OPUS_BITRATE_MAX at h3
    split_ifs <;> first | rfl | (exfalso; omega)

/-- C3 (witness): the amended behaviour at the concrete raw values `510000`
(accepted) and `-7` (rejected with `InvalidBandwidth(-7)`). -/
theorem c3_bitrate_tryFrom_amended_witness :
    Bitrate.tryFrom 510000 = .ok (.BitsPerSecond 510000) ∧
      Bitrate.tryFrom (-7) = .error (.InvalidBandwidth (-7)) :=
  ⟨(c3_bitrate_tryFrom_amended 510000).1 (by decide),
    (c3_bitrate_tryFrom_amended (-7)).2.2.2 (by decide) (by decide) (by decide)⟩

/-- C4: the version query panics (terminates the process abnormally) when the
native library's version string is not valid UTF-8 — e.g. the single byte
`0xFF` — because `version()` unwraps the `to_str` result instead of
reporting the decoding failure as a recoverable error value. -/
theorem c4_version_aborts_on_invalid_utf8 :
    version [255] = VersionOutcome.abort := by
  decide

/-- C5: `Bandwidth::try_from` maps the auto sentinel (checked first, before
the ladder comparisons) to `Auto`, each of the five ladder codes to its
variant, and every other `i32` to the failure `InvalidBandwidth` carrying
the offending value. -/
theorem c5_bandwidth_tryFrom (v : Int) (hv1 : -2147483648 ≤ v) (hv2 : v < 2147483648) :
    Bandwidth.tryFrom v =
      if v = OPUS_AUTO then .ok .Auto
      else if v = OPUS_BANDWIDTH_NARROWBAND then .ok .Narrowband
      else if v = OPUS_BANDWIDTH_MEDIUMBAND then .ok .Mediumband
      else if v = OPUS_BANDWIDTH_WIDEBAND then .ok .Wideband
      else if v = OPUS_BANDWIDTH_SUPERWIDEBAND then .ok .Superwideband
      else if v = OPUS_BANDWIDTH_FULLBAND then .ok .Fullband
      else .error (.InvalidBandwidth v) := by
  unfold Bandwidth.tryFrom i32ToU32 OPUS_AUTO OPUS_BANDWIDTH_NARROWBAND
    OPUS_BANDWIDTH_MEDIUMBAND OPUS_BANDWIDTH_WIDEBAND OPUS_BANDWIDTH_SUPERWIDEBAND
    OPUS_BANDWIDTH_FULLBAND
  split_ifs <;> first | rfl | (exfalso; omega)

/-- C5 (witness): the characterization at the concrete raw values `-1000`
(the sentinel), `1103` (a ladder code) and `0` (rejected). -/
theorem c5_bandwidth_tryFrom_witness :
    Bandwidth.tryFrom (-1000) = .ok .Auto ∧ Bandwidth.tryFrom 1103 = .ok .Wideband ∧
      Bandwidth.tryFrom 0 = .error (.InvalidBandwidth 0) :=
  ⟨(c5_bandwidth_tryFrom (-1000) (by decide) (by decide)).trans (by decide),
    (c5_bandwidth_tryFrom 1103 (by decide) (by decide)).trans (by decide),
    (c5_bandwidth_tryFrom 0 (by decide) (by decide)).trans (by decide)⟩

/-- C6: constructing a `MutSignals` guard from a slice succeeds exactly when
the slice length is at most `i32::MAX` (zero length succeeds), and fails
with `SignalsTooLarge` exactly when the length exceeds `i32::MAX`. -/
theorem c6_mutsignals_tryFrom (α : Type) (l : List α) :
    ((∃ g : MutSignals α, MutSignals.tryFrom l = .ok g) ↔ l.length ≤ 2147483647) ∧
    MutSignals.tryFrom ([] : List α) = .ok ⟨[]⟩ ∧
    (MutSignals.tryFrom l = .error .SignalsTooLarge ↔ 2147483647 < l.length) := by
  refine ⟨⟨fun ⟨g, hg⟩ => ?_, fun hlen => ⟨⟨l⟩, ?_⟩⟩, ?_, ⟨fun h => ?_, fun hlen => ?_⟩⟩
  · by_contra hlen
    unfold MutSignals.tryFrom at hg
    rw [if_pos (by omega)] at hg
    exact Except.noConfusion hg
  · unfold MutSignals.tryFrom
    rw [if_neg (by omega)]
  · unfold MutSignals.tryFrom
    rw [if_neg (by simp)]
  · by_contra hlen
    unfold MutSignals.tryFrom at h
    rw [if_neg (by omega)] at h
    exact Except.noConfusion h
  · unfold MutSignals.tryFrom
    rw [if_pos (by omega)]

/-- C7: `SampleRate::try_from` succeeds exactly on the five raw values 8000,
12000, 16000, 24000 and 48000, yielding the variant whose raw code equals
the input, and fails with `InvalidSampleRate` carrying the offending value
for every other `i32`. -/
theorem c7_samplerate_tryFrom (v : Int) :
    (∀ r : SampleRate, SampleRate.tryFrom v = .ok r ↔ v = r.toRaw) ∧
    (SampleRate.tryFrom v = .error (.InvalidSampleRate v) ↔
      v ∉ ([8000, 12000, 16000, 24000, 48000] : List Int)) := by
  constructor
  · intro r
    unfold SampleRate.tryFrom
    cases r <;> (unfold SampleRate.toRaw; split_ifs <;> simp_all)
  · unfold SampleRate.tryFrom
    simp only [List.mem_cons, List.not_mem_nil, or_false, not_or]
    split_ifs <;> simp_all

/-- C8: `is_mono` holds exactly on `Channels::Mono`, `is_stereo` exactly on
`Channels::Stereo`, and `Channels::Auto` answers false to both. -/
theorem c8_channels_predicates :
    ∀ c : Channels,
      (c.is_mono = true ↔ c = .Mono) ∧ (c.is_stereo = true ↔ c = .Stereo) ∧
      Channels.Auto.is_mono = false ∧ Channels.Auto.is_stereo = false := by
  intro c
  cases c <;> exact ⟨by decide, by decide, by decide, by decide⟩

/-- C9: the `Vec` convenience conversion forwards the vector's underlying
slice to the slice conversion, so both return exactly the same
success-or-error outcome on every buffer. -/
theorem c9_vec_forwards_to_slice :
    ∀ (α : Type) (v : List α), MutSignals.tryFromVec v = MutSignals.tryFrom v :=
  fun _ _ => rfl

/-- C10: `Signal`, `Channels` and `Bandwidth` give their `Auto` variants the
one shared raw sentinel `OPUS_AUTO`; all three conversions succeed on that
raw input with their own `Auto`; the sentinel is not `0`, and
`Channels::try_from(0)` fails. -/
theorem c10_shared_auto_sentinel :
    Signal.tryFrom OPUS_AUTO = .ok .Auto ∧
    Channels.tryFrom OPUS_AUTO = .ok .Auto ∧
    Bandwidth.tryFrom OPUS_AUTO = .ok .Auto ∧
    Signal.toRaw .Auto = OPUS_AUTO ∧
    Channels.toI32 .Auto = OPUS_AUTO ∧
    Bandwidth.toRaw .Auto = OPUS_AUTO ∧
    OPUS_AUTO ≠ 0 ∧
    Channels.tryFrom 0 = .error (.InvalidChannels 0) := by
  decide
